import Mathlib

/-!
Shallow embedding of `phabry.py` (class `Phabry`): a two-level cursor-pagination
mirror of Phabricator revisions and their transactions.

The remote API, the filesystem and the logger are modelled as an explicit
environment (`Env`): the response the remote gives to the one-off probe, to the
k-th revision-page request, and to the k-th transaction-page request for a given
revision `phid`, plus a predicate saying which file writes fail.  The engine
(`run`, translating `Phabry.run`, lines 185-232 of `phabry.py`) is a fuel-indexed
function from that environment to an `Outcome` and a trace (`RunState`): the
ordered list of HTTP requests issued, of file writes performed, and of errors
logged by `Phabry.handle_exception`.
-/

namespace Phabry

/-- A pagination cursor as the Python code represents it: a string token
(the initial value is the empty string), or the Python literal `False`
(assigned when the response's `cursor.after` is `null`), which ends the loop. -/
inductive Cursor
  | tok (s : String)
  | exhausted
deriving DecidableEq, Repr

/-- The Python exceptions that can propagate through `Phabry.run`:
`requests` transport errors (`raise_for_status` / connection failures),
`json.JSONDecodeError`, the `RequestException(error_code, error_info)` raised
by `get_revisions` / `get_transactions` on a non-null remote error code,
`IndexError` from `data[0]` on an empty record list, `ZeroDivisionError`
from the progress computation, and `OSError` from a file write. -/
inductive Exc
  | transport
  | decodeErr
  | remoteRejected (code : String) (info : String)
  | indexError
  | zeroDiv
  | osError
deriving DecidableEq, Repr

/-- The fields of one revision record that the engine reads:
`rev['id']` and `rev['phid']` (lines 216-223 of `phabry.py`). -/
structure Rev where
  id : Int
  phid : String
deriving DecidableEq, Repr

/-- A parsed `differential.revision.search` response body:
`error_code` / `error_info`, `result.data` and `result.cursor.after`. -/
structure RevResponse where
  error_code : Option String
  error_info : String
  data : List Rev
  cursorAfter : Option String
deriving DecidableEq, Repr

/-- A parsed `transaction.search` response body. -/
structure TxnResponse where
  error_code : Option String
  error_info : String
  records : List String
  cursorAfter : Option String
deriving DecidableEq, Repr

/-- What one HTTP exchange can yield before the engine looks at the body:
a transport-level failure (`raise_for_status` or the request itself raised),
a body that is not valid JSON (`json.loads` raised), or a parsed body. -/
inductive FetchResult (α : Type)
  | transportErr
  | decodeFail
  | ok (resp : α)
deriving DecidableEq, Repr

/-- `Phabry.get_revisions` (lines 142-165) after the HTTP exchange: raise on a
transport or decode failure, raise `RequestException(error_code, error_info)`
when the parsed body carries a non-null `error_code`, otherwise translate
`result.cursor.after` (`null` becomes the `False` sentinel) and return the
parsed body together with the next cursor. -/
def get_revisions : FetchResult RevResponse → Except Exc (RevResponse × Cursor)
  | .transportErr => .error .transport
  | .decodeFail => .error .decodeErr
  | .ok r =>
    match r.error_code with
    | some c => .error (.remoteRejected c r.error_info)
    | none =>
      match r.cursorAfter with
      | none => .ok (r, .exhausted)
      | some s => .ok (r, .tok s)

/-- `Phabry.get_transactions` (lines 167-182): same error discipline as
`get_revisions`, for the `transaction.search` endpoint. -/
def get_transactions : FetchResult TxnResponse → Except Exc (TxnResponse × Cursor)
  | .transportErr => .error .transport
  | .decodeFail => .error .decodeErr
  | .ok t =>
    match t.error_code with
    | some c => .error (.remoteRejected c t.error_info)
    | none =>
      match t.cursorAfter with
      | none => .ok (t, .exhausted)
      | some s => .ok (t, .tok s)

/-- The revision-page artifact name built at lines 207-208:
`str(first_rev_id) + '-' + str(last_rev_id) + '.json'`. -/
def revFileName (firstRevId lastRevId : Int) : String :=
  toString firstRevId ++ "-" ++ toString lastRevId ++ ".json"

/-- The transaction-page artifact name built at line 223:
`str(rev['id']) + '_' + str(file_count) + '.json'`. -/
def txnFileName (revId : Int) (fileCount : Nat) : String :=
  toString revId ++ "_" ++ toString fileCount ++ ".json"

/-- The progress expression printed at lines 204-206:
`(current_first_rev_id - first_rev_id) * 100 // (last_rev_id - first_rev_id)`.
Python `//` is floor division (`Int.fdiv`); a zero divisor raises
`ZeroDivisionError`. -/
def progressEstimate (currentFirstRevId firstRevId lastRevId : Int) : Except Exc Int :=
  if lastRevId - firstRevId = 0 then .error .zeroDiv
  else .ok (((currentFirstRevId - firstRevId) * 100).fdiv (lastRevId - firstRevId))

/-- Modelled from the spec (§4.3), for comparison with `progressEstimate`:
`clamp(100 * (lastId - firstId) / max(latestKnownId - firstId, 1), 0, 100)`. -/
def specEstimate (firstId lastId latestKnownId : Int) : Int :=
  min 100 (max 0 ((100 * (lastId - firstId)).fdiv (max (latestKnownId - firstId) 1)))

/-- One HTTP request issued by the engine, identified by its pagination context
and its ordinal within that context. -/
inductive Req
  | probe
  | revPage (k : Nat)
  | txnPage (phid : String) (k : Nat)
deriving DecidableEq, Repr

/-- The payload serialized into an artifact: the whole parsed response body
(`json.dump(revisions, ...)` / `json.dump(transactions, ...)`). -/
inductive Content
  | rev (r : RevResponse)
  | txn (t : TxnResponse)
deriving DecidableEq, Repr

/-- One completed file write: target subdirectory, file name, content. -/
structure FsWrite where
  dir : String
  name : String
  content : Content
deriving DecidableEq, Repr

/-- The observable trace of a run: requests issued, writes performed, and the
`(exception, context)` pairs recorded by `Phabry.handle_exception`, each in
program order. -/
structure RunState where
  reqs : List Req
  writes : List FsWrite
  log : List (Exc × String)
deriving DecidableEq, Repr

def RunState.init : RunState := ⟨[], [], []⟩

def RunState.addReq (st : RunState) (r : Req) : RunState :=
  { st with reqs := st.reqs ++ [r] }

def RunState.addWrite (st : RunState) (w : FsWrite) : RunState :=
  { st with writes := st.writes ++ [w] }

def RunState.addLog (st : RunState) (e : Exc) (ctx : String) : RunState :=
  { st with log := st.log ++ [(e, ctx)] }

/-- The environment a run executes against: what the remote answers to the
initial newest-first probe, to the k-th oldest-first revision-page request, and
to the k-th transaction-page request for a given revision `phid`; and which
file writes raise `OSError`. -/
structure Env where
  probe : FetchResult RevResponse
  revPages : Nat → FetchResult RevResponse
  txnPages : String → Nat → FetchResult TxnResponse
  revWriteFails : String → Bool
  txnWriteFails : String → Bool

/-- How a run ends: normal outer-loop exhaustion, a propagated exception, or
fuel ran out before the remote reported exhaustion (the Python loops have no
bound of their own). -/
inductive Outcome
  | normal
  | raised (e : Exc)
  | outOfFuel
deriving DecidableEq, Repr

/-- The inner `while after_cursor_transactions is not False` loop
(lines 219-232), for the revision with the given `id` and `phid`.  Arguments:
remaining fuel, current cursor, `file_count`, the ordinal of the next
transaction request for this revision, and the trace so far.  A fetch or write
failure is logged and ends the loop (cursor treated as `False`); the Boolean
result is `false` only when fuel ran out with the cursor still live. -/
def txnLoop (env : Env) (revId : Int) (phid : String) :
    Nat → Cursor → Nat → Nat → RunState → Bool × RunState
  | _, .exhausted, _, _, st => (true, st)
  | 0, .tok _, _, _, st => (false, st)
  | fuel + 1, .tok _, fileCount, k, st =>
    let st1 := st.addReq (.txnPage phid k)
    match get_transactions (env.txnPages phid k) with
    | .error e =>
      (true, st1.addLog e ("transactions of revision " ++ toString revId))
    | .ok (txns, ac) =>
      if env.txnWriteFails (txnFileName revId fileCount) then
        (true, st1.addLog .osError ("transactions of revision " ++ toString revId))
      else
        let st2 := st1.addWrite ⟨"transactions", txnFileName revId fileCount, .txn txns⟩
        let fileCount1 := if ac = .exhausted then fileCount else fileCount + 1
        txnLoop env revId phid fuel ac fileCount1 (k + 1) st2

/-- The `for rev in revisions['result']['data']` loop (line 216): run the
transaction walker for each revision of the page in order. -/
def processRevs (env : Env) (fuel : Nat) : List Rev → RunState → Bool × RunState
  | [], st => (true, st)
  | r :: rest, st =>
    match txnLoop env r.id r.phid fuel (.tok "") 0 0 st with
    | (true, st1) => processRevs env fuel rest st1
    | (false, st1) => (false, st1)

/-- The outer `while after_cursor is not False` loop (lines 195-232).
Arguments: remaining fuel, current cursor, `first_rev_id` (latched via the
`== 0` sentinel), `last_rev_id` (from the probe, never changed), the ordinal of
the next revision-page request, and the trace so far.  Any exception inside the
`try` block — fetch failure, `data[0]` on an empty page, the progress
division, or the page write — is re-raised and ends the run. -/
def revLoop (env : Env) :
    Nat → Cursor → Int → Int → Nat → RunState → Outcome × RunState
  | _, .exhausted, _, _, _, st => (.normal, st)
  | 0, .tok _, _, _, _, st => (.outOfFuel, st)
  | fuel + 1, .tok _, firstRevId, lastRevId, k, st =>
    let st1 := st.addReq (.revPage k)
    match get_revisions (env.revPages k) with
    | .error e => (.raised e, st1)
    | .ok (revs, ac) =>
      match revs.data with
      | [] => (.raised .indexError, st1)
      | r0 :: _ =>
        let firstRevId1 := if firstRevId = 0 then r0.id else firstRevId
        match progressEstimate r0.id firstRevId1 lastRevId with
        | .error e => (.raised e, st1)
        | .ok _ =>
          if env.revWriteFails (revFileName firstRevId1 lastRevId) then
            (.raised .osError, st1)
          else
            let st2 := st1.addWrite ⟨"revisions", revFileName firstRevId1 lastRevId, .rev revs⟩
            match processRevs env fuel revs.data st2 with
            | (true, st3) => revLoop env fuel ac firstRevId1 lastRevId (k + 1) st3
            | (false, st3) => (.outOfFuel, st3)

/-- `Phabry.run` (lines 185-232): fetch the newest revision with a
single-record probe to establish `last_rev_id` (an empty probe result raises
`IndexError` at `data[0]`, line 191; any probe failure is re-raised,
lines 192-194), then drive the outer loop from the empty cursor with
`first_rev_id = 0`. -/
def run (env : Env) (fuel : Nat) : Outcome × RunState :=
  let st0 := RunState.init.addReq .probe
  match get_revisions env.probe with
  | .error e => (.raised e, st0)
  | .ok (lastRevision, _) =>
    match lastRevision.data with
    | [] => (.raised .indexError, st0)
    | r :: _ => revLoop env fuel (.tok "") 0 r.id 0 st0

/-- Result of constructing `Phabry` and calling `.run()`: whether the
`revisions/` and `transactions/` subdirectories were created, and the run's
outcome and trace. -/
structure FullResult where
  dirsCreated : Bool
  outcome : Outcome
  state : RunState
deriving DecidableEq, Repr

/-- `Phabry.__init__` followed by `Phabry.run` (lines 115-124 and 185-232):
the constructor unconditionally calls `os.makedirs` for both output
subdirectories (lines 122-123) before any HTTP request is made, so the
directories exist whatever the run later does. -/
def phabryMain (env : Env) (fuel : Nat) : FullResult :=
  let r := run env fuel
  { dirsCreated := true, outcome := r.1, state := r.2 }

/-! Concrete environments used to evaluate the engine on specific scenarios. -/

/-- A transaction-search response with a single record and no further page. -/
def txnT : TxnResponse := ⟨none, "", ["t"], none⟩

/-- Scenario: revision 555's transaction search succeeds on page 0 (with a
further page announced) and fails with a transport error on page 1; revision
556's transaction search succeeds in one page. -/
def envC1 : Env :=
  { probe := .ok ⟨none, "", [⟨556, "P556"⟩], none⟩,
    revPages := fun k =>
      if k = 0 then .ok ⟨none, "", [⟨555, "P555"⟩, ⟨556, "P556"⟩], none⟩
      else .transportErr,
    txnPages := fun phid k =>
      if phid = "P555" then
        if k = 0 then .ok ⟨none, "", ["a"], some "t1"⟩ else .transportErr
      else
        if k = 0 then .ok ⟨none, "", ["b"], none⟩ else .transportErr,
    revWriteFails := fun _ => false,
    txnWriteFails := fun _ => false }

/-- The first revision page served by `envC2`. -/
def pageC2 : RevResponse := ⟨none, "", [⟨1, "P1"⟩, ⟨5, "P5"⟩], some "c1"⟩

/-- Scenario: revision page 0 is fine, revision page 1 is not valid JSON. -/
def envC2 : Env :=
  { probe := .ok ⟨none, "", [⟨9, "P9"⟩], none⟩,
    revPages := fun k => if k = 0 then .ok pageC2 else .decodeFail,
    txnPages := fun _ k => if k = 0 then .ok txnT else .transportErr,
    revWriteFails := fun _ => false,
    txnWriteFails := fun _ => false }

/-- The trace of `envC2` after its first revision page has been fully
processed: probe, page-0 fetch, the page-0 artifact, and one transaction
artifact per revision of the page. -/
def stC2 : RunState :=
  ⟨[.probe, .revPage 0, .txnPage "P1" 0, .txnPage "P5" 0],
   [⟨"revisions", "1-9.json", .rev pageC2⟩,
    ⟨"transactions", "1_0.json", .txn txnT⟩,
    ⟨"transactions", "5_0.json", .txn txnT⟩],
   []⟩

/-- The two revision pages served by `envC4` / `envC5`. -/
def pageA : RevResponse := ⟨none, "", [⟨1, "P1"⟩, ⟨5, "P5"⟩], some "c1"⟩

/-- Second revision page served by `envC4` / `envC5`. -/
def pageB : RevResponse := ⟨none, "", [⟨6, "P6"⟩, ⟨9, "P9"⟩], none⟩

/-- Scenario: two successful revision pages, ids 1-5 then 6-9, latest known
id 9, every transaction history a single page. -/
def envC4 : Env :=
  { probe := .ok ⟨none, "", [⟨9, "P9"⟩], none⟩,
    revPages := fun k =>
      if k = 0 then .ok pageA else if k = 1 then .ok pageB else .transportErr,
    txnPages := fun _ k => if k = 0 then .ok txnT else .transportErr,
    revWriteFails := fun _ => false,
    txnWriteFails := fun _ => false }

/-- Same remote behavior as `envC4`; kept separate so each scenario has its
own environment. -/
def envC5 : Env :=
  { probe := .ok ⟨none, "", [⟨9, "P9"⟩], none⟩,
    revPages := fun k =>
      if k = 0 then .ok pageA else if k = 1 then .ok pageB else .transportErr,
    txnPages := fun _ k => if k = 0 then .ok txnT else .transportErr,
    revWriteFails := fun _ => false,
    txnWriteFails := fun _ => false }

/-- Scenario: the window contains no revisions — the first revision page is
well-formed but its `result.data` list is empty. -/
def envC6 : Env :=
  { probe := .ok ⟨none, "", [⟨9, "P9"⟩], none⟩,
    revPages := fun _ => .ok ⟨none, "", [], none⟩,
    txnPages := fun _ _ => .ok ⟨none, "", [], none⟩,
    revWriteFails := fun _ => false,
    txnWriteFails := fun _ => false }

/-- Scenario: the initial latest-known-id probe fails with a transport
error. -/
def envC7 : Env :=
  { probe := .transportErr,
    revPages := fun _ => .ok ⟨none, "", [], none⟩,
    txnPages := fun _ _ => .ok ⟨none, "", [], none⟩,
    revWriteFails := fun _ => false,
    txnWriteFails := fun _ => false }

/-- Scenario: the window contains exactly one revision, which is also the
latest known revision, so `last_rev_id - first_rev_id = 0` on the first
page. -/
def envC9 : Env :=
  { probe := .ok ⟨none, "", [⟨7, "P7"⟩], none⟩,
    revPages := fun _ => .ok ⟨none, "", [⟨7, "P7"⟩], none⟩,
    txnPages := fun _ _ => .ok ⟨none, "", [], none⟩,
    revWriteFails := fun _ => false,
    txnWriteFails := fun _ => false }

/-- Scenario: revision 1's first transaction page is fetched successfully but
writing `1_0.json` raises; revision 2 is unaffected and has two transaction
pages. -/
def envC10 : Env :=
  { probe := .ok ⟨none, "", [⟨9, "P9"⟩], none⟩,
    revPages := fun k =>
      if k = 0 then .ok ⟨none, "", [⟨1, "P1"⟩, ⟨2, "P2"⟩], none⟩ else .transportErr,
    txnPages := fun _ k =>
      if k = 0 then .ok ⟨none, "", ["x"], some "t1"⟩ else .ok ⟨none, "", ["y"], none⟩,
    revWriteFails := fun _ => false,
    txnWriteFails := fun n => n = "1_0.json" }

/-! Theorems. -/

/-- Recording a request leaves the write trace unchanged. -/
@[simp] theorem addReq_writes (st : RunState) (r : Req) :
    (st.addReq r).writes = st.writes := rfl

/-- Logging leaves the write trace unchanged. -/
@[simp] theorem addLog_writes (st : RunState) (e : Exc) (c : String) :
    (st.addLog e c).writes = st.writes := rfl

/-- A write appends one entry to the write trace. -/
@[simp] theorem addWrite_writes (st : RunState) (w : FsWrite) :
    (st.addWrite w).writes = st.writes ++ [w] := rfl

/-- C8: a response that parses as well-formed JSON but carries a non-null
remote `error_code` makes both `get_revisions` and `get_transactions` raise
(`RequestException(error_code, error_info)`, lines 158-160 and 175-177)
instead of returning the parsed body. -/
theorem remote_error_code_raises (r : RevResponse) (t : TxnResponse) (c d : String)
    (hr : r.error_code = some c) (ht : t.error_code = some d) :
    get_revisions (.ok r) = .error (.remoteRejected c r.error_info) ∧
    get_transactions (.ok t) = .error (.remoteRejected d t.error_info) := by
  refine ⟨?_, ?_⟩ <;> simp [get_revisions, get_transactions, hr, ht]

/-- Witness for `remote_error_code_raises` at a concrete rejected response. -/
theorem remote_error_code_raises_wit :
    get_revisions (.ok ⟨some "ERR-INVALID", "bad token", [], none⟩) =
      .error (.remoteRejected "ERR-INVALID" "bad token") ∧
    get_transactions (.ok ⟨some "ERR-OOPS", "oops", [], none⟩) =
      .error (.remoteRejected "ERR-OOPS" "oops") :=
  remote_error_code_raises ⟨some "ERR-INVALID", "bad token", [], none⟩
    ⟨some "ERR-OOPS", "oops", [], none⟩ "ERR-INVALID" "ERR-OOPS" rfl rfl

/-- C2: when the fetch of revision page `k` fails — transport error, decode
error, or a remote-rejected body, i.e. any `.error` from `get_revisions` —
the outer loop re-raises at once (lines 211-214): the run terminates with that
exception, the failing request is the last request issued, and nothing more is
written. -/
theorem rev_page_failure_fatal (env : Env) (fuel : Nat) (s : String) (f l : Int)
    (k : Nat) (st : RunState) (e : Exc)
    (h : get_revisions (env.revPages k) = .error e) :
    revLoop env (fuel + 1) (.tok s) f l k st = (.raised e, st.addReq (.revPage k)) := by
  simp [revLoop, h]

/-- Witness for `rev_page_failure_fatal`: in `envC2` the second revision page
is not valid JSON; the loop step from the post-page-0 trace `stC2` raises
`decodeErr`, and the whole run from the start does the same, leaving exactly
the page-0 artifact (and its transaction artifacts) written and no page-1
artifact. -/
theorem rev_page_failure_fatal_wit :
    get_revisions (envC2.revPages 1) = .error .decodeErr ∧
    revLoop envC2 3 (.tok "c1") 1 9 1 stC2 = (.raised .decodeErr, stC2.addReq (.revPage 1)) ∧
    run envC2 4 = (.raised .decodeErr, stC2.addReq (.revPage 1)) :=
  ⟨rfl, rev_page_failure_fatal envC2 2 "c1" 1 9 1 stC2 .decodeErr rfl, rfl⟩

/-- C7 counterexample: with a probe that fails with a transport error
(`envC7`), the run aborts with no artifact written — but the output
subdirectories `revisions/` and `transactions/` do exist, because
`Phabry.__init__` created them (lines 122-123) before the probe was sent, so
the claim that the run aborts before any output subdirectory has been created
is false. -/
theorem probe_failure_dirs_cex :
    phabryMain envC7 5 = ⟨true, .raised .transport, ⟨[.probe], [], []⟩⟩ := rfl

/-- C7 amended: if the probe fails, the run aborts with that exception before
any artifact is written and before any further request, but the output
subdirectories were already created during construction. -/
theorem probe_failure_no_artifacts (env : Env) (fuel : Nat) (e : Exc)
    (h : get_revisions env.probe = .error e) :
    phabryMain env fuel = ⟨true, .raised e, ⟨[.probe], [], []⟩⟩ := by
  simp [phabryMain, run, h, RunState.init, RunState.addReq]

/-- Witness for `probe_failure_no_artifacts` at `envC7`. -/
theorem probe_failure_no_artifacts_wit :
    get_revisions envC7.probe = .error .transport ∧
    phabryMain envC7 7 = ⟨true, .raised .transport, ⟨[.probe], [], []⟩⟩ :=
  ⟨rfl, probe_failure_no_artifacts envC7 7 .transport rfl⟩

/-- C6: on a well-formed but empty first revision page (`envC6`, a window
containing no revisions) the run does not terminate cleanly: line 198 indexes
`revisions['result']['data'][0]`, which raises `IndexError`; the `except`
block re-raises it, so the run ends abnormally with zero revisions
processed. -/
theorem empty_first_page_raises :
    run envC6 5 = (.raised .indexError, ⟨[.probe, .revPage 0], [], []⟩) := rfl

/-- C3 counterexample: the code's progress expression (lines 204-206) is not
the clamped formula of the claim.  At `firstId = 0`, page boundary id
(the claim's `lastId`) `= 2`, `latestKnownId = 1`, the code yields `200`
while `clamp(100 * (2 - 0) / max(1 - 0, 1), 0, 100) = 100` — so the code's
value is neither the claimed formula nor in `[0, 100]`; and at
`latestKnownId = firstId = 1` the code raises `ZeroDivisionError` instead of
returning the claimed clamped value. -/
theorem progress_formula_cex :
    progressEstimate 2 0 1 = .ok 200 ∧ specEstimate 0 2 1 = 100 ∧
    progressEstimate 3 1 1 = .error .zeroDiv ∧ specEstimate 1 3 1 = 100 :=
  ⟨rfl, rfl, rfl, rfl⟩

/-- Helper: one successful inner iteration whose response announces a further
page: the page is persisted as `{revId}_{fileCount}.json` and the loop
continues with `file_count` incremented. -/
theorem txnLoop_step_more (env : Env) (fuel : Nat) (revId : Int) (phid s : String)
    (fc k : Nat) (st : RunState) (t : TxnResponse) (s2 : String)
    (hfetch : get_transactions (env.txnPages phid k) = .ok (t, .tok s2))
    (hw : env.txnWriteFails (txnFileName revId fc) = false) :
    txnLoop env revId phid (fuel + 1) (.tok s) fc k st =
      txnLoop env revId phid fuel (.tok s2) (fc + 1) (k + 1)
        ((st.addReq (.txnPage phid k)).addWrite
          ⟨"transactions", txnFileName revId fc, .txn t⟩) := by
  simp [txnLoop, hfetch, hw]

/-- Helper: a failed inner fetch is logged and ends the inner loop at once,
with nothing written for that page. -/
theorem txnLoop_fetch_fail (env : Env) (fuel : Nat) (revId : Int) (phid s : String)
    (fc k : Nat) (st : RunState) (e : Exc)
    (hfetch : get_transactions (env.txnPages phid k) = .error e) :
    txnLoop env revId phid (fuel + 1) (.tok s) fc k st =
      (true, (st.addReq (.txnPage phid k)).addLog e
        ("transactions of revision " ++ toString revId)) := by
  simp [txnLoop, hfetch]

/-- C1: if the fetch of some transaction page of revision `r` fails after its
page 0 succeeded (with a further page announced) and was persisted, the
failure is logged, the inner loop for `r` stops as if its cursor were
exhausted, and the outer iteration continues with the remaining revisions of
the page exactly as if `r` had completed: `{r.id}_0.json` is the only artifact
added for `r` and no `{r.id}_1.json` is written. -/
theorem txn_page_failure_isolated (env : Env) (fuel : Nat) (r : Rev)
    (rest : List Rev) (st : RunState) (t0 : TxnResponse) (s1 : String) (e : Exc)
    (h0 : get_transactions (env.txnPages r.phid 0) = .ok (t0, .tok s1))
    (hw : env.txnWriteFails (txnFileName r.id 0) = false)
    (h1 : get_transactions (env.txnPages r.phid 1) = .error e) :
    processRevs env (fuel + 2) (r :: rest) st =
      processRevs env (fuel + 2) rest
        ((((st.addReq (.txnPage r.phid 0)).addWrite
            ⟨"transactions", txnFileName r.id 0, .txn t0⟩).addReq
            (.txnPage r.phid 1)).addLog e
            ("transactions of revision " ++ toString r.id)) := by
  have e1 := txnLoop_step_more env (fuel + 1) r.id r.phid "" 0 0 st t0 s1 h0 hw
  have e2 := txnLoop_fetch_fail env fuel r.id r.phid s1 1 1
    ((st.addReq (.txnPage r.phid 0)).addWrite
      ⟨"transactions", txnFileName r.id 0, .txn t0⟩) e h1
  simp only [Nat.zero_add] at e1
  simp [processRevs, e1, e2]

/-- Witness for `txn_page_failure_isolated`, scenario 3 of the spec: in
`envC1`, revision 555's transaction search fails with a transport error on
its second page; the outer iteration carries on to revision 556, and the full
run ends normally with `555_0.json` and `556_0.json` written and no
`555_1.json`. -/
theorem txn_page_failure_isolated_wit :
    processRevs envC1 6 [⟨555, "P555"⟩, ⟨556, "P556"⟩]
        ⟨[.probe, .revPage 0],
         [⟨"revisions", "555-556.json",
           .rev ⟨none, "", [⟨555, "P555"⟩, ⟨556, "P556"⟩], none⟩⟩], []⟩ =
      processRevs envC1 6 [⟨556, "P556"⟩]
        ((((RunState.addReq
              ⟨[.probe, .revPage 0],
               [⟨"revisions", "555-556.json",
                 .rev ⟨none, "", [⟨555, "P555"⟩, ⟨556, "P556"⟩], none⟩⟩], []⟩
              (.txnPage "P555" 0)).addWrite
            ⟨"transactions", txnFileName 555 0, .txn ⟨none, "", ["a"], some "t1"⟩⟩).addReq
            (.txnPage "P555" 1)).addLog .transport
            ("transactions of revision " ++ toString (555 : Int))) ∧
    run envC1 6 =
      (.normal,
       ⟨[.probe, .revPage 0, .txnPage "P555" 0, .txnPage "P555" 1, .txnPage "P556" 0],
        [⟨"revisions", "555-556.json",
          .rev ⟨none, "", [⟨555, "P555"⟩, ⟨556, "P556"⟩], none⟩⟩,
         ⟨"transactions", "555_0.json", .txn ⟨none, "", ["a"], some "t1"⟩⟩,
         ⟨"transactions", "556_0.json", .txn ⟨none, "", ["b"], none⟩⟩],
        [(.transport, "transactions of revision 555")]⟩) :=
  ⟨txn_page_failure_isolated envC1 4 ⟨555, "P555"⟩ [⟨556, "P556"⟩] _
      ⟨none, "", ["a"], some "t1"⟩ "t1" .transport rfl rfl rfl,
   rfl⟩

/-- C10: an exception while writing an already-fetched transaction page
(modelled by `txnWriteFails`) is caught by the same handler as a fetch
failure (lines 229-232): it is logged, nothing is written for that page, the
inner loop for that revision stops as if its cursor were exhausted, and —
when it is the revision's first page — the outer iteration continues with the
remaining revisions exactly as if the revision had completed. -/
theorem txn_write_failure_recovered (env : Env) (fuel : Nat) (r : Rev)
    (rest : List Rev) (st st2 : RunState) (fc k : Nat) (s : String)
    (t : TxnResponse) (ac : Cursor)
    (hfetch : get_transactions (env.txnPages r.phid k) = .ok (t, ac))
    (hw : env.txnWriteFails (txnFileName r.id fc) = true) :
    txnLoop env r.id r.phid (fuel + 1) (.tok s) fc k st2 =
      (true, (st2.addReq (.txnPage r.phid k)).addLog .osError
        ("transactions of revision " ++ toString r.id)) ∧
    (fc = 0 → k = 0 →
      processRevs env (fuel + 1) (r :: rest) st =
        processRevs env (fuel + 1) rest
          ((st.addReq (.txnPage r.phid 0)).addLog .osError
            ("transactions of revision " ++ toString r.id))) := by
  constructor
  · simp [txnLoop, hfetch, hw]
  · intro hfc hk
    subst hfc
    subst hk
    simp [processRevs, txnLoop, hfetch, hw]

/-- Witness for `txn_write_failure_recovered`: in `envC10` the write of
`1_0.json` raises although the fetch succeeded; revision 1's transaction
history is dropped, and the full run still processes revision 2 (both its
pages) and ends normally. -/
theorem txn_write_failure_recovered_wit :
    (txnLoop envC10 1 "P1" 6 (.tok "") 0 0 ⟨[], [], []⟩ =
      (true, (RunState.addReq ⟨[], [], []⟩ (.txnPage "P1" 0)).addLog .osError
        ("transactions of revision " ++ toString (1 : Int))) ∧
    (0 = 0 → 0 = 0 →
      processRevs envC10 6 [⟨1, "P1"⟩, ⟨2, "P2"⟩] ⟨[], [], []⟩ =
        processRevs envC10 6 [⟨2, "P2"⟩]
          ((RunState.addReq ⟨[], [], []⟩ (.txnPage "P1" 0)).addLog .osError
            ("transactions of revision " ++ toString (1 : Int))))) ∧
    run envC10 6 =
      (.normal,
       ⟨[.probe, .revPage 0, .txnPage "P1" 0, .txnPage "P2" 0, .txnPage "P2" 1],
        [⟨"revisions", "1-9.json",
          .rev ⟨none, "", [⟨1, "P1"⟩, ⟨2, "P2"⟩], none⟩⟩,
         ⟨"transactions", "2_0.json", .txn ⟨none, "", ["x"], some "t1"⟩⟩,
         ⟨"transactions", "2_1.json", .txn ⟨none, "", ["y"], none⟩⟩],
        [(.osError, "transactions of revision 1")]⟩) :=
  ⟨txn_write_failure_recovered envC10 5 ⟨1, "P1"⟩ [⟨2, "P2"⟩] ⟨[], [], []⟩ ⟨[], [], []⟩
      0 0 "" ⟨none, "", ["x"], some "t1"⟩ (.tok "t1") rfl rfl,
   rfl⟩

/-- C4 counterexample: in `envC4` the first revision page holds ids 1-5 and
the latest known id is 9; the claim predicts an artifact `1-5.json` for that
page, but the code (lines 207-208) names every page artifact with the probe's
id: both pages are written as `1-9.json`, the name never grows, and no
`1-5.json` exists. -/
theorem rev_artifact_name_cex :
    ((run envC4 6).2.writes.map fun w => (w.dir, w.name)) =
      [("revisions", "1-9.json"), ("transactions", "1_0.json"),
       ("transactions", "5_0.json"), ("revisions", "1-9.json"),
       ("transactions", "6_0.json"), ("transactions", "9_0.json")] ∧
    ((run envC4 6).2.writes.filter fun w => w.name = "1-5.json") = [] :=
  ⟨rfl, rfl⟩

/-- C4 amended: every successfully persisted revision page is written to
`revisions/` under the name `{firstIdInWindow}-{latestKnownId}.json`, where
`latestKnownId` is the id fetched by the initial probe (`last_rev_id`), not
the id of the last record of the page just fetched; the name therefore does
not grow as the run advances. -/
theorem rev_artifact_named_from_probe (env : Env) (fuel : Nat) (s : String)
    (f l : Int) (k : Nat) (st : RunState) (revs : RevResponse) (ac : Cursor)
    (r0 : Rev) (rs : List Rev)
    (hfetch : get_revisions (env.revPages k) = .ok (revs, ac))
    (hdata : revs.data = r0 :: rs)
    (hne : l - (if f = 0 then r0.id else f) ≠ 0)
    (hw : env.revWriteFails (revFileName (if f = 0 then r0.id else f) l) = false) :
    revLoop env (fuel + 1) (.tok s) f l k st =
      (match processRevs env fuel revs.data
          ((st.addReq (.revPage k)).addWrite
            ⟨"revisions", revFileName (if f = 0 then r0.id else f) l, .rev revs⟩) with
       | (true, st3) => revLoop env fuel ac (if f = 0 then r0.id else f) l (k + 1) st3
       | (false, st3) => (.outOfFuel, st3)) := by
  simp [revLoop, hfetch, hdata, progressEstimate, hne, hw]

/-- Witness for `rev_artifact_named_from_probe` at the first page of `envC4`:
the artifact is `1-9.json` (first id 1, probe id 9), not `1-5.json`. -/
theorem rev_artifact_named_from_probe_wit :
    get_revisions (envC4.revPages 0) = .ok (pageA, .tok "c1") ∧
    revLoop envC4 6 (.tok "") 0 9 0 ⟨[.probe], [], []⟩ =
      (match processRevs envC4 5 pageA.data
          ((RunState.addReq ⟨[.probe], [], []⟩ (.revPage 0)).addWrite
            ⟨"revisions", revFileName (if (0 : Int) = 0 then 1 else 0) 9, .rev pageA⟩) with
       | (true, st3) => revLoop envC4 5 (.tok "c1") (if (0 : Int) = 0 then 1 else 0) 9 1 st3
       | (false, st3) => (.outOfFuel, st3)) :=
  ⟨rfl,
   rev_artifact_named_from_probe envC4 5 "" 0 9 0 ⟨[.probe], [], []⟩ pageA
     (.tok "c1") ⟨1, "P1"⟩ [⟨5, "P5"⟩] rfl rfl (by decide) rfl⟩

/-- C9 amended: the progress computation is an unguarded integer division by
`last_rev_id - first_rev_id`; whenever the probe's id equals the latched
first id of the window it raises `ZeroDivisionError`, and because the print
sits inside the fatal `try` block the exception is re-raised: the run
terminates and the fetched page is not persisted.  (For any other value the
division itself succeeds.) -/
theorem progress_zero_div_fatal (env : Env) (fuel : Nat) (s : String) (f l : Int)
    (k : Nat) (st : RunState) (revs : RevResponse) (ac : Cursor)
    (r0 : Rev) (rs : List Rev)
    (hfetch : get_revisions (env.revPages k) = .ok (revs, ac))
    (hdata : revs.data = r0 :: rs)
    (heq : l = if f = 0 then r0.id else f) :
    revLoop env (fuel + 1) (.tok s) f l k st = (.raised .zeroDiv, st.addReq (.revPage k)) ∧
    progressEstimate r0.id (if f = 0 then r0.id else f) l = .error .zeroDiv := by
  constructor
  · simp [revLoop, hfetch, hdata, progressEstimate, heq]
  · simp [progressEstimate, heq]

/-- Witness for `progress_zero_div_fatal` at the first page of `envC9`
(single revision 7, latest known id 7). -/
theorem progress_zero_div_fatal_wit :
    revLoop envC9 5 (.tok "") 0 7 0 ⟨[.probe], [], []⟩ =
      (.raised .zeroDiv, RunState.addReq ⟨[.probe], [], []⟩ (.revPage 0)) ∧
    progressEstimate 7 (if (0 : Int) = 0 then 7 else 0) 7 = .error .zeroDiv :=
  progress_zero_div_fatal envC9 4 "" 0 7 0 ⟨[.probe], [], []⟩
    ⟨none, "", [⟨7, "P7"⟩], none⟩ .exhausted ⟨7, "P7"⟩ [] rfl rfl (by decide)

/-- C9 counterexample: in `envC9` the only revision in the window is also the
latest known one, so on the first page `last_rev_id - first_rev_id = 0` and
the progress computation raises `ZeroDivisionError`; the `except` block
re-raises it, the run terminates, and the fetched page is never persisted —
the progress display does cause a fatal error and does affect which pages are
persisted. -/
theorem progress_zero_div_cex :
    run envC9 5 = (.raised .zeroDiv, ⟨[.probe, .revPage 0], [], []⟩) := rfl

/-- C3 amended: the code's progress value is
`(pageFirstId - firstId) * 100 // (latestKnownId - firstId)` with Python
floor division, no clamp and no `max` guard; on the inputs reachable while
consuming a window in order — `firstId ≤ pageFirstId ≤ latestKnownId` with
`firstId < latestKnownId` — it is an integer in `[0, 100]` and equals `100`
when the page boundary reaches `latestKnownId`. -/
theorem progress_estimate_bounds (f x l : Int) (h1 : f < l) (h2 : f ≤ x)
    (h3 : x ≤ l) :
    progressEstimate x f l = .ok (((x - f) * 100).fdiv (l - f)) ∧
    0 ≤ ((x - f) * 100).fdiv (l - f) ∧
    ((x - f) * 100).fdiv (l - f) ≤ 100 ∧
    (x = l → ((x - f) * 100).fdiv (l - f) = 100) := by
  have hpos : (0 : Int) < l - f := by omega
  have hne : l - f ≠ 0 := by omega
  refine ⟨by simp [progressEstimate, hne], ?_, ?_, ?_⟩
  · exact Int.fdiv_nonneg (by nlinarith) (le_of_lt hpos)
  · rw [Int.fdiv_eq_ediv _ (le_of_lt hpos)]
    calc ((x - f) * 100) / (l - f) ≤ ((l - f) * 100) / (l - f) :=
          Int.ediv_le_ediv hpos (by nlinarith)
      _ = 100 := Int.mul_ediv_cancel_left _ hne
  · intro hx
    subst hx
    rw [Int.fdiv_eq_ediv _ (le_of_lt hpos)]
    exact Int.mul_ediv_cancel_left _ hne

/-- Witness for `progress_estimate_bounds` at `firstId = 0`,
`pageFirstId = 3`, `latestKnownId = 10` (value `30`). -/
theorem progress_estimate_bounds_wit :
    progressEstimate 3 0 10 = .ok ((((3 : Int) - 0) * 100).fdiv (10 - 0)) ∧
    0 ≤ (((3 : Int) - 0) * 100).fdiv (10 - 0) ∧
    (((3 : Int) - 0) * 100).fdiv (10 - 0) ≤ 100 ∧
    ((3 : Int) = 10 → (((3 : Int) - 0) * 100).fdiv (10 - 0) = 100) :=
  progress_estimate_bounds 0 3 10 (by decide) (by decide) (by decide)

/-- C5 counterexample: in `envC5` the first and fourth writes of the run go to
the same artifact `revisions/1-9.json` with different contents (page ids 1-5,
then page ids 6-9): persisting the later revision page rewrites the content of
the artifact written for the earlier one, so artifacts are not immutable once
written. -/
theorem artifact_overwrite_cex :
    (run envC5 6).2.writes[0]? = some ⟨"revisions", "1-9.json", .rev pageA⟩ ∧
    (run envC5 6).2.writes[3]? = some ⟨"revisions", "1-9.json", .rev pageB⟩ ∧
    Content.rev pageA ≠ Content.rev pageB :=
  ⟨rfl, rfl, by decide⟩

/-- Helper: the inner transaction loop only appends writes, and everything it
appends goes to the `transactions/` subdirectory. -/
theorem txnLoop_writes_append (env : Env) (revId : Int) (phid : String) :
    ∀ fuel ac fc k st, ∃ ws,
      (txnLoop env revId phid fuel ac fc k st).2.writes = st.writes ++ ws ∧
      ∀ w ∈ ws, w.dir = "transactions" := by
  intro fuel
  induction fuel with
  | zero =>
    intro ac fc k st
    cases ac <;> exact ⟨[], by simp [txnLoop], by simp⟩
  | succ n ih =>
    intro ac fc k st
    cases ac with
    | exhausted => exact ⟨[], by simp [txnLoop], by simp⟩
    | tok s =>
      cases hg : get_transactions (env.txnPages phid k) with
      | error e => exact ⟨[], by simp [txnLoop, hg], by simp⟩
      | ok p =>
        obtain ⟨t, ac2⟩ := p
        by_cases hw : env.txnWriteFails (txnFileName revId fc) = true
        · exact ⟨[], by simp [txnLoop, hg, hw], by simp⟩
        · have hw2 : env.txnWriteFails (txnFileName revId fc) = false := by
            simpa using hw
          have hstep : txnLoop env revId phid (n + 1) (.tok s) fc k st =
              txnLoop env revId phid n ac2 (if ac2 = .exhausted then fc else fc + 1)
                (k + 1)
                ((st.addReq (.txnPage phid k)).addWrite
                  ⟨"transactions", txnFileName revId fc, .txn t⟩) := by
            simp [txnLoop, hg, hw2]
          obtain ⟨ws, hws, hdirs⟩ := ih ac2 (if ac2 = .exhausted then fc else fc + 1)
            (k + 1)
            ((st.addReq (.txnPage phid k)).addWrite
              ⟨"transactions", txnFileName revId fc, .txn t⟩)
          refine ⟨⟨"transactions", txnFileName revId fc, .txn t⟩ :: ws, ?_, ?_⟩
          · rw [hstep, hws]
            simp
          · intro w hwmem
            rcases List.mem_cons.mp hwmem with h | h
            · subst h; rfl
            · exact hdirs w h

/-- Helper: processing the revisions of a page only appends writes, all of
them in the `transactions/` subdirectory. -/
theorem processRevs_writes_append (env : Env) (fuel : Nat) :
    ∀ revs st, ∃ ws,
      (processRevs env fuel revs st).2.writes = st.writes ++ ws ∧
      ∀ w ∈ ws, w.dir = "transactions" := by
  intro revs
  induction revs with
  | nil => intro st; exact ⟨[], by simp [processRevs], by simp⟩
  | cons r rest ih =>
    intro st
    obtain ⟨ws1, h1, d1⟩ := txnLoop_writes_append env r.id r.phid fuel (.tok "") 0 0 st
    cases ht : txnLoop env r.id r.phid fuel (.tok "") 0 0 st with
    | mk done st1 =>
      rw [ht] at h1
      cases done with
      | false =>
        refine ⟨ws1, ?_, d1⟩
        simp only [processRevs, ht]
        exact h1
      | true =>
        obtain ⟨ws2, h2, d2⟩ := ih st1
        refine ⟨ws1 ++ ws2, ?_, ?_⟩
        · simp only [processRevs, ht]
          rw [h2, h1, List.append_assoc]
        · intro w hwmem
          rcases List.mem_append.mp hwmem with h | h
          · exact d1 w h
          · exact d2 w h

/-- Helper: along the whole outer loop there is a single id `f1` — the value
the `first_rev_id == 0` latch settles on — such that every write the loop
appends either goes to `transactions/` or is the revision-page artifact named
`revFileName f1 l`; `l` (the probe's id) never changes.  The hypothesis rules
out a revision with id `0`, which would re-arm the latch. -/
theorem revLoop_writes_aux (env : Env) (l : Int)
    (hids : ∀ k resp ac, get_revisions (env.revPages k) = .ok (resp, ac) →
      ∀ r0 rs, resp.data = r0 :: rs → r0.id ≠ 0) :
    ∀ fuel ac f k st, ∃ f1, (f ≠ 0 → f1 = f) ∧
      ∀ w ∈ (revLoop env fuel ac f l k st).2.writes,
        w ∈ st.writes ∨ w.dir = "transactions" ∨ w.name = revFileName f1 l := by
  intro fuel
  induction fuel with
  | zero =>
    intro ac f k st
    refine ⟨f, fun _ => rfl, ?_⟩
    cases ac <;> simp [revLoop] <;> exact fun w hw => Or.inl hw
  | succ n ih =>
    intro ac f k st
    cases ac with
    | exhausted =>
      exact ⟨f, fun _ => rfl, by simp [revLoop]; exact fun w hw => Or.inl hw⟩
    | tok s =>
      cases hg : get_revisions (env.revPages k) with
      | error e =>
        exact ⟨f, fun _ => rfl, by simp [revLoop, hg]; exact fun w hw => Or.inl hw⟩
      | ok p =>
        obtain ⟨revs, ac2⟩ := p
        cases hd : revs.data with
        | nil =>
          exact ⟨f, fun _ => rfl, by simp [revLoop, hg, hd]; exact fun w hw => Or.inl hw⟩
        | cons r0 rs =>
          have hr0 : r0.id ≠ 0 := hids k revs ac2 hg r0 rs hd
          have hfc : ∃ fc : Int, (if f = 0 then r0.id else f) = fc ∧ fc ≠ 0 ∧
              (f ≠ 0 → fc = f) := by
            by_cases hf : f = 0
            · exact ⟨r0.id, by simp [hf], hr0, fun h => absurd hf h⟩
            · exact ⟨f, by simp [hf], hf, fun _ => rfl⟩
          obtain ⟨fc, hfceq, hfc0, hfcf⟩ := hfc
          cases hp : progressEstimate r0.id fc l with
          | error e =>
            refine ⟨fc, hfcf, ?_⟩
            have hstep : revLoop env (n + 1) (.tok s) f l k st =
                (.raised e, st.addReq (.revPage k)) := by
              simp [revLoop, hg, hd, hfceq, hp]
            rw [hstep]
            exact fun w hw => Or.inl hw
          | ok v =>
            by_cases hw : env.revWriteFails (revFileName fc l) = true
            · refine ⟨fc, hfcf, ?_⟩
              have hstep : revLoop env (n + 1) (.tok s) f l k st =
                  (.raised .osError, st.addReq (.revPage k)) := by
                simp [revLoop, hg, hd, hfceq, hp, hw]
              rw [hstep]
              exact fun w hwm => Or.inl hwm
            · have hw2 : env.revWriteFails (revFileName fc l) = false := by
                simpa using hw
              obtain ⟨ws, hws, hdirs⟩ := processRevs_writes_append env n (r0 :: rs)
                ((st.addReq (.revPage k)).addWrite
                  ⟨"revisions", revFileName fc l, .rev revs⟩)
              cases hpr : processRevs env n (r0 :: rs)
                  ((st.addReq (.revPage k)).addWrite
                    ⟨"revisions", revFileName fc l, .rev revs⟩) with
              | mk done st3 =>
                rw [hpr] at hws
                have hst3 : ∀ w ∈ st3.writes,
                    w ∈ st.writes ∨ w.dir = "transactions" ∨
                    w.name = revFileName fc l := by
                  intro w hwm
                  rw [hws] at hwm
                  rcases List.mem_append.mp hwm with h | h
                  · simp only [addWrite_writes, addReq_writes] at h
                    rcases List.mem_append.mp h with h2 | h2
                    · exact Or.inl h2
                    · right; right
                      rcases List.mem_singleton.mp h2 with rfl
                      rfl
                  · exact Or.inr (Or.inl (hdirs w h))
                cases done with
                | false =>
                  refine ⟨fc, hfcf, ?_⟩
                  have hstep : revLoop env (n + 1) (.tok s) f l k st =
                      (.outOfFuel, st3) := by
                    simp [revLoop, hg, hd, hfceq, hp, hw2, hpr]
                  rw [hstep]
                  exact hst3
                | true =>
                  obtain ⟨f1, himp, hmem⟩ := ih ac2 fc (k + 1) st3
                  have hf1 : f1 = fc := himp hfc0
                  rw [hf1] at hmem
                  refine ⟨fc, hfcf, ?_⟩
                  have hstep : revLoop env (n + 1) (.tok s) f l k st =
                      revLoop env n ac2 fc l (k + 1) st3 := by
                    simp [revLoop, hg, hd, hfceq, hp, hw2, hpr]
                  rw [hstep]
                  intro w hwm
                  rcases hmem w hwm with h | h
                  · exact hst3 w h
                  · exact Or.inr h

/-- C5 amended: persisting a later revision page rewrites the content of the
artifact written for an earlier one instead of adding a new artifact — every
write of a run outside the `transactions/` subdirectory, i.e. every
revision-page artifact, carries one single name, built from the latched first
id and the probe's id.  (The hypothesis excludes a revision with id `0`,
which would re-arm the `first_rev_id == 0` latch and change the name.  No
immutability is asserted for transaction artifacts: their names
`{revisionId}_{pageIndex}` are fresh within one revision's walk, but nothing
prevents a revision id from recurring across pages and re-using a name.) -/
theorem rev_artifacts_share_one_name (env : Env) (fuel : Nat)
    (hids : ∀ k resp ac, get_revisions (env.revPages k) = .ok (resp, ac) →
      ∀ r0 rs, resp.data = r0 :: rs → r0.id ≠ 0) :
    ∃ f1 l, ∀ w ∈ (run env fuel).2.writes,
      w.dir = "transactions" ∨ w.name = revFileName f1 l := by
  cases hp : get_revisions env.probe with
  | error e =>
    refine ⟨0, 0, ?_⟩
    simp [run, hp, RunState.init]
  | ok p =>
    obtain ⟨resp, ac⟩ := p
    cases hd : resp.data with
    | nil =>
      refine ⟨0, 0, ?_⟩
      simp [run, hp, hd, RunState.init]
    | cons r rest =>
      obtain ⟨f1, _, hmem⟩ := revLoop_writes_aux env r.id hids fuel (.tok "") 0 0
        (RunState.init.addReq .probe)
      refine ⟨f1, r.id, ?_⟩
      intro w hw
      have : w ∈ (revLoop env fuel (.tok "") 0 r.id 0
          (RunState.init.addReq .probe)).2.writes := by
        simpa [run, hp, hd] using hw
      rcases hmem w this with h | h
      · simp [RunState.init, RunState.addReq] at h
      · exact h

/-- Witness for `rev_artifacts_share_one_name` at `envC5`: its pages carry
ids 1, 5, 6, 9, none of them `0`, so the run has a single revision-artifact
name. -/
theorem rev_artifacts_share_one_name_wit :
    ∃ f1 l, ∀ w ∈ (run envC5 6).2.writes,
      w.dir = "transactions" ∨ w.name = revFileName f1 l := by
  refine rev_artifacts_share_one_name envC5 6 ?_
  intro k resp ac h r0 rs hd
  match k with
  | 0 =>
    simp [envC5, get_revisions, pageA] at h
    obtain ⟨h1, _⟩ := h
    subst h1
    simp [pageA] at hd
    obtain ⟨rfl, _⟩ := hd
    decide
  | 1 =>
    simp [envC5, get_revisions, pageB] at h
    obtain ⟨h1, _⟩ := h
    subst h1
    simp [pageB] at hd
    obtain ⟨rfl, _⟩ := hd
    decide
  | (n + 2) =>
    simp [envC5, get_revisions] at h

end Phabry
